import Mathlib

/-!
# Cart synchronization core: a shallow embedding

This file embeds the cart synchronization core of the repository
(session identity, the cart reducer, the five SyncEngine operations and
the derived views) as executable Lean definitions, and proves the
specification's claims about them.

Modelling conventions:
- JavaScript numbers appearing as quantities and stock figures are
  modelled as `Int`; prices are modelled as `ℚ`.
- A field that may be `undefined` or `null` in JavaScript is modelled
  with `Option`: `Product.available_stock : Option JsNumOrNull` has
  `none` for a missing/undefined field, `some .null` for a field that is
  present but `null`, and `some (.num n)` for a number.
- The browser's `localStorage` slot for the session id is modelled as an
  explicit `Option String` threaded through `getCartId`;
  `Math.random().toString(36).substr(2, 9)` and `Date.now()` are passed
  in as parameters (`rnd : String`, `time : Nat`).
- Each asynchronous SyncEngine operation is modelled as a function from
  the current state and the outcomes of its network calls to the ordered
  trace of observable events it performs: reducer dispatches, HTTP
  requests, and user-facing alerts.
-/

namespace CartSync

/-- A JavaScript value that is either a number or `null`. -/
inductive JsNumOrNull where
  | null : JsNumOrNull
  | num (n : Int) : JsNumOrNull
deriving DecidableEq, Repr

/-- JavaScript relational comparison converts `null` to `0`
(`ToNumber(null) = 0`), so `null >= k` compares `0 >= k`. -/
def JsNumOrNull.toNumber : JsNumOrNull → Int
  | .null => 0
  | .num n => n

/-- A catalog product as delivered by the backend:
`{ id, name, price, stock, available_stock }`. The same shape is used
for the `productDetails` snapshot stored on a cart item.
`available_stock` is `none` when the field is absent/undefined. -/
structure Product where
  id : Nat
  name : String
  price : ℚ
  stock : Int
  available_stock : Option JsNumOrNull
deriving DecidableEq, Repr

/-- A frontend cart line:
`{ id, productId, quantity, productDetails }` (source lines 64-75). -/
structure CartItem where
  id : Nat
  productId : Nat
  quantity : Int
  productDetails : Product
deriving DecidableEq, Repr

/-- The cart container state `{ items, loading, error }`. -/
structure CartState where
  items : List CartItem
  loading : Bool
  error : Option String
deriving DecidableEq, Repr

/-- Reducer actions. The `SET_CART` payload's `items` field is
`Option (List CartItem)`: `none` models a missing/undefined/null
`payload.items` (all falsy in the source's `action.payload.items || []`).
`other` stands for any unrecognized action type (the switch default). -/
inductive Action where
  | setCart (items : Option (List CartItem)) : Action
  | setLoading (b : Bool) : Action
  | setError (msg : String) : Action
  | other : Action
deriving DecidableEq, Repr

/-- The reducer `cartReducer` (source lines 16-42). -/
def cartReducer (state : CartState) (action : Action) : CartState :=
  match action with
  | .setCart items =>
      { state with items := items.getD [], loading := false, error := none }
  | .setLoading b => { state with loading := b }
  | .setError msg => { state with error := some msg, loading := false }
  | .other => state

/-- The identifier generated on a cache miss:
`'cart-' + Math.random().toString(36).substr(2, 9) + '-' + Date.now()`. -/
def genCartId (rnd : String) (time : Nat) : String :=
  "cart-" ++ rnd ++ "-" ++ toString time

/-- `getCartId` (source lines 7-14). The storage cell is passed in and
returned; `store.getD ""` models `localStorage.getItem` returning `null`
for a missing key, and the `= ""` test models JavaScript string
falsiness in `if (!cartId)`. -/
def getCartId (store : Option String) (rnd : String) (time : Nat) :
    String × Option String :=
  let cartId := store.getD ""
  if cartId = "" then
    let fresh := genCartId rnd time
    (fresh, some fresh)
  else
    (cartId, store)

/-- The outcome of one `fetch` call, as observed by the surrounding
`try`/`catch`: the fetch promise rejected (`netError`, carrying the
error message), the response arrived with `!response.ok` (`notOk`,
carrying the parsed `errorData.detail` when the operation reads it), or
the response was successful (`ok`, carrying the parsed body). -/
inductive FetchResult (α : Type) where
  | netError (msg : String) : FetchResult α
  | notOk (detail : Option String) : FetchResult α
  | ok (data : α) : FetchResult α
deriving DecidableEq, Repr

/-- Whether the fetch outcome is a non-success response or a network
failure. -/
def FetchResult.isFailure {α : Type} : FetchResult α → Bool
  | .ok _ => false
  | _ => true

/-- A backend cart row as returned by `GET /cart/{sessionId}`:
`{ id, product_id, quantity, product }`. -/
structure BackendItem where
  id : Nat
  product_id : Nat
  quantity : Int
  product : Product
deriving DecidableEq, Repr

/-- The backend-to-frontend mapping inside `loadCart`
(source lines 64-75). -/
def convertItem (item : BackendItem) : CartItem :=
  { id := item.id
    productId := item.product_id
    quantity := item.quantity
    productDetails :=
      { id := item.product.id
        name := item.product.name
        price := item.product.price
        stock := item.product.stock
        available_stock := item.product.available_stock } }

/-- The HTTP requests the SyncEngine can issue. All paths live under
`/cart/{cartId}`; the session id is a constant for one provider
instance, so it is left implicit. -/
inductive Request where
  | getCart : Request
  | postItem (product_id : Nat) (quantity : Int) : Request
  | putItem (lineId : Nat) (product_id : Nat) (quantity : Int) : Request
  | deleteItem (lineId : Nat) : Request
  | deleteCart : Request
deriving DecidableEq, Repr

/-- One observable event of an operation, in program order: a reducer
dispatch, an HTTP request, or a user-facing `alert`. -/
inductive Event where
  | dispatch (a : Action) : Event
  | request (r : Request) : Event
  | alert (msg : String) : Event
deriving DecidableEq, Repr

def Event.isRequest : Event → Bool
  | .request _ => true
  | _ => false

/-- `loadCart` (source lines 54-82): dispatch `SET_LOADING(true)`, issue
`GET /cart/{cartId}`, then either dispatch `SET_CART` with the converted
rows, or — on `!response.ok` (fixed message `Failed to load cart`) or a
network error — dispatch `SET_ERROR`. No alert is shown. -/
def loadCart (resp : FetchResult (List BackendItem)) : List Event :=
  Event.dispatch (Action.setLoading true) ::
  Event.request Request.getCart ::
  match resp with
  | .ok rows => [Event.dispatch (Action.setCart (some (rows.map convertItem)))]
  | .notOk _ => [Event.dispatch (Action.setError "Failed to load cart")]
  | .netError m => [Event.dispatch (Action.setError m)]

/-- `addToCart` (source lines 88-115): dispatch `SET_LOADING(true)`,
POST the line, then reload on success; on failure dispatch `SET_ERROR`
with `errorData.detail || 'Failed to add to cart'` (or the network error
message) and alert the user. -/
def addToCart (product : Product) (quantity : Int) (resp : FetchResult Unit)
    (loadResp : FetchResult (List BackendItem)) : List Event :=
  Event.dispatch (Action.setLoading true) ::
  Event.request (Request.postItem product.id quantity) ::
  match resp with
  | .ok _ => loadCart loadResp
  | .notOk d =>
      [Event.dispatch (Action.setError (d.getD "Failed to add to cart")),
       Event.alert ("Error: " ++ d.getD "Failed to add to cart")]
  | .netError m =>
      [Event.dispatch (Action.setError m), Event.alert ("Error: " ++ m)]

/-- `removeFromCart` (source lines 117-136): resolve the line locally
(`state.items.find`), return silently when absent, otherwise DELETE the
line and reload on success; on failure only `console.error` and `alert`
run — no action is dispatched. -/
def removeFromCart (state : CartState) (productId : Nat)
    (deleteResp : FetchResult Unit)
    (loadResp : FetchResult (List BackendItem)) : List Event :=
  match state.items.find? (fun item => item.productId == productId) with
  | none => []
  | some item =>
    Event.request (Request.deleteItem item.id) ::
    match deleteResp with
    | .ok _ => loadCart loadResp
    | .notOk _ => [Event.alert "Error: Failed to remove from cart"]
    | .netError m => [Event.alert ("Error: " ++ m)]

/-- `updateQuantity` (source lines 138-169): resolve the line locally,
return silently when absent; delegate to `removeFromCart` when
`quantity <= 0`; otherwise PUT the new quantity and reload on success;
on failure only `console.error` and `alert` run — no action is
dispatched. -/
def updateQuantity (state : CartState) (productId : Nat) (quantity : Int)
    (putResp : FetchResult Unit) (deleteResp : FetchResult Unit)
    (loadResp : FetchResult (List BackendItem)) : List Event :=
  match state.items.find? (fun item => item.productId == productId) with
  | none => []
  | some item =>
    if quantity ≤ 0 then
      removeFromCart state productId deleteResp loadResp
    else
      Event.request (Request.putItem item.id productId quantity) ::
      match putResp with
      | .ok _ => loadCart loadResp
      | .notOk d => [Event.alert ("Error: " ++ d.getD "Failed to update quantity")]
      | .netError m => [Event.alert ("Error: " ++ m)]

/-- `clearCart` (source lines 171-186): DELETE the whole session cart;
on success dispatch `SET_CART` with an empty item list directly (no
reload); on failure only `console.error` and `alert` run. -/
def clearCart (deleteResp : FetchResult Unit) : List Event :=
  Event.request Request.deleteCart ::
  match deleteResp with
  | .ok _ => [Event.dispatch (Action.setCart (some []))]
  | .notOk _ => [Event.alert "Error: Failed to clear cart"]
  | .netError m => [Event.alert ("Error: " ++ m)]

/-- Run the reducer over the dispatches of an event trace: the cart
state reached after an operation completes. -/
def applyEvent (s : CartState) (e : Event) : CartState :=
  match e with
  | .dispatch a => cartReducer s a
  | _ => s

def applyEvents (s : CartState) (evs : List Event) : CartState :=
  evs.foldl applyEvent s

/-- The first action an event trace dispatches to the reducer, if any. -/
def firstDispatched : List Event → Option Action
  | [] => none
  | Event.dispatch a :: _ => some a
  | _ :: rest => firstDispatched rest

/-- The actions dispatched strictly before the first HTTP request of the
trace. -/
def actionsBeforeFirstRequest : List Event → List Action
  | [] => []
  | Event.request _ :: _ => []
  | Event.dispatch a :: rest => a :: actionsBeforeFirstRequest rest
  | Event.alert _ :: rest => actionsBeforeFirstRequest rest

/-- Whether the trace dispatches some `SET_ERROR` action. -/
def hasSetErrorDispatch : List Event → Bool
  | [] => false
  | Event.dispatch (Action.setError _) :: _ => true
  | _ :: rest => hasSetErrorDispatch rest

/-- Whether the trace shows some user-facing alert. -/
def hasAlert : List Event → Bool
  | [] => false
  | Event.alert _ :: _ => true
  | _ :: rest => hasAlert rest

/-- How many HTTP requests the trace issues. -/
def requestCount : List Event → Nat
  | [] => 0
  | e :: rest => (if e.isRequest then 1 else 0) + requestCount rest

/-- `getCartItemCount` (source lines 188-190). -/
def getCartItemCount (state : CartState) : Int :=
  state.items.foldl (fun total item => total + item.quantity) 0

/-- `getCartTotal` (source lines 192-196). -/
def getCartTotal (state : CartState) : ℚ :=
  state.items.foldl
    (fun total item => total + item.productDetails.price * (item.quantity : ℚ)) 0

/-- `getProductQuantityInCart` (source lines 198-201). -/
def getProductQuantityInCart (state : CartState) (productId : Nat) : Int :=
  match state.items.find? (fun item => item.productId == productId) with
  | some item => item.quantity
  | none => 0

/-- `getAvailableStock` (source lines 203-206):
`product.available_stock !== undefined ? product.available_stock :
product.stock`. Only an absent (`undefined`) field falls back to
`product.stock`; a present `null` is returned as-is. -/
def getAvailableStock (product : Product) : JsNumOrNull :=
  product.available_stock.getD (JsNumOrNull.num product.stock)

/-- `canAddToCart` (source lines 208-211): `availableStock >= quantity`,
with JavaScript coercion of `null` to `0` in the comparison; the
quantity parameter defaults to `1`. -/
def canAddToCart (product : Product) (quantity : Int := 1) : Bool :=
  decide ((getAvailableStock product).toNumber ≥ quantity)

/-- A sample product used to instantiate hypotheses of the claim
theorems at concrete inputs. -/
def sampleProduct : Product :=
  { id := 1, name := "widget", price := 10, stock := 5,
    available_stock := some (JsNumOrNull.num 5) }

/-- A sample cart line for `sampleProduct`, line id `7`, quantity `2`. -/
def sampleItem : CartItem :=
  { id := 7, productId := 1, quantity := 2, productDetails := sampleProduct }

/-- A sample cart state holding exactly `sampleItem`. -/
def sampleState : CartState :=
  { items := [sampleItem], loading := false, error := none }

/-! ## Claim theorems -/

/-- C7: the reducer transitions `SET_CART` and `SET_LOADING` are
idempotent: for every cart state and every fixed action of one of these
two types, applying the action twice yields the same state as applying
it once. -/
theorem setCart_setLoading_idempotent (s : CartState)
    (payload : Option (List CartItem)) (b : Bool) :
    cartReducer (cartReducer s (Action.setCart payload)) (Action.setCart payload) =
      cartReducer s (Action.setCart payload) ∧
    cartReducer (cartReducer s (Action.setLoading b)) (Action.setLoading b) =
      cartReducer s (Action.setLoading b) :=
  ⟨rfl, rfl⟩

/-- C9: applying `SET_CART` with a missing/undefined/null `items`
payload yields a state whose `items` is the empty list (with `loading`
cleared and `error` reset), because the reducer normalizes a falsy
`action.payload.items` to `[]`. -/
theorem setCart_falsy_items_normalized (s : CartState) :
    cartReducer s (Action.setCart none) =
      { items := [], loading := false, error := none } :=
  rfl

/-- A left fold that adds `f x` for each element equals the initial
accumulator plus the sum of the mapped list. -/
theorem foldl_add_eq_sum {α β : Type} [AddCommMonoid β] (f : α → β)
    (l : List α) (c : β) :
    l.foldl (fun acc x => acc + f x) c = c + (l.map f).sum := by
  induction l generalizing c with
  | nil => simp
  | cons a l ih => simp [ih, add_assoc]

/-- C5: the derived views are the claimed sums: `getCartItemCount` is
the sum of the items' quantities and `getCartTotal` is the sum of
snapshot price times quantity over the items; in particular, for the
cart lines `q1..qn` of distinct products these are `Σ qi` and
`Σ price_i * qi`. -/
theorem derived_views_are_sums (s : CartState) :
    getCartItemCount s = (s.items.map (fun item => item.quantity)).sum ∧
    getCartTotal s =
      (s.items.map
        (fun item => item.productDetails.price * (item.quantity : ℚ))).sum := by
  constructor
  · rw [getCartItemCount, foldl_add_eq_sum]
    exact zero_add _
  · rw [getCartTotal, foldl_add_eq_sum]
    exact zero_add _

/-- The generated session identifier is never the empty string, so it
never retriggers the falsy-storage branch. -/
theorem genCartId_ne_empty (rnd : String) (time : Nat) :
    genCartId rnd time ≠ "" := by
  intro h
  have hlen := congrArg String.length h
  rw [genCartId, String.length_append, String.length_append,
    String.length_append] at hlen
  have h5 : String.length "cart-" = 5 := rfl
  have h1 : String.length "-" = 1 := rfl
  have h0 : String.length "" = 0 := rfl
  omega

/-- C8: `getCartId` is stable and persistent: with empty storage it
returns a fresh identifier built from the random and time components
and persists it; called on storage holding a previously generated
identifier it returns that value and leaves storage unchanged; and for
every starting storage, two successive calls return equal
identifiers. -/
theorem getCartId_stable_persistent (store : Option String)
    (r1 r2 : String) (t1 t2 : Nat) :
    getCartId none r1 t1 = (genCartId r1 t1, some (genCartId r1 t1)) ∧
    getCartId (some (genCartId r1 t1)) r2 t2 =
      (genCartId r1 t1, some (genCartId r1 t1)) ∧
    (getCartId ((getCartId store r1 t1).2) r2 t2).1 =
      (getCartId store r1 t1).1 := by
  refine ⟨rfl, ?_, ?_⟩
  · simp [getCartId, genCartId_ne_empty r1 t1]
  · cases store with
    | none => simp [getCartId, genCartId_ne_empty r1 t1]
    | some v =>
      by_cases hv : v = "" <;>
        simp [getCartId, hv, genCartId_ne_empty r1 t1]

/-- C3: `updateQuantity(p, q)` with `q ≤ 0` produces exactly the trace
of `removeFromCart(p)` — hence the same resulting state, dispatched
actions, requests and alerts — for every cart state, including when no
line exists for `p`. -/
theorem updateQuantity_nonpos_eq_removeFromCart (s : CartState) (pid : Nat)
    (q : Int) (putResp deleteResp : FetchResult Unit)
    (loadResp : FetchResult (List BackendItem)) (hq : q ≤ 0) :
    updateQuantity s pid q putResp deleteResp loadResp =
      removeFromCart s pid deleteResp loadResp := by
  unfold updateQuantity removeFromCart
  cases s.items.find? (fun item => item.productId == pid) with
  | none => rfl
  | some item => simp [hq]

theorem updateQuantity_nonpos_eq_removeFromCart_witness :
    (0 : Int) ≤ 0 ∧
    updateQuantity sampleState 1 0 (FetchResult.ok ()) (FetchResult.ok ())
        (FetchResult.ok []) =
      removeFromCart sampleState 1 (FetchResult.ok ()) (FetchResult.ok []) :=
  ⟨by decide,
   updateQuantity_nonpos_eq_removeFromCart sampleState 1 0
     (FetchResult.ok ()) (FetchResult.ok ()) (FetchResult.ok []) (by decide)⟩

/-- C4: `removeFromCart` for a product id matching no cart line is a
silent no-op: the event trace is empty (no request, no dispatch, no
alert) and the resulting state is unchanged. -/
theorem removeFromCart_absent_noop (s : CartState) (pid : Nat)
    (deleteResp : FetchResult Unit)
    (loadResp : FetchResult (List BackendItem))
    (h : ∀ item ∈ s.items, item.productId ≠ pid) :
    removeFromCart s pid deleteResp loadResp = [] ∧
    applyEvents s (removeFromCart s pid deleteResp loadResp) = s := by
  have hf : s.items.find? (fun item => item.productId == pid) = none := by
    rw [List.find?_eq_none]
    intro item hm
    simpa using h item hm
  have he : removeFromCart s pid deleteResp loadResp = [] := by
    unfold removeFromCart
    rw [hf]
  exact ⟨he, by rw [he]; rfl⟩

theorem removeFromCart_absent_noop_witness :
    (∀ item ∈ sampleState.items, item.productId ≠ 2) ∧
    (removeFromCart sampleState 2 (FetchResult.ok ()) (FetchResult.ok []) = [] ∧
     applyEvents sampleState
        (removeFromCart sampleState 2 (FetchResult.ok ()) (FetchResult.ok [])) =
      sampleState) :=
  ⟨by decide,
   removeFromCart_absent_noop sampleState 2 (FetchResult.ok ())
     (FetchResult.ok []) (by decide)⟩

/-- C6: whenever `getAvailableStock` yields a number `m` — i.e. the
product's `available_stock` field is a number, or is absent so that the
code falls back to `product.stock` — `canAddToCart product k` is true
iff `k ≤ m`; and `canAddToCart` with the quantity omitted uses `k = 1`
(the default argument). -/
theorem canAddToCart_iff_le_availableStock (p : Product) (k m : Int)
    (h : getAvailableStock p = JsNumOrNull.num m) :
    (canAddToCart p k = true ↔ k ≤ m) ∧
    canAddToCart p = canAddToCart p 1 := by
  refine ⟨?_, rfl⟩
  simp [canAddToCart, h, JsNumOrNull.toNumber, ge_iff_le]

theorem canAddToCart_iff_le_availableStock_witness :
    getAvailableStock sampleProduct = JsNumOrNull.num 5 ∧
    ((canAddToCart sampleProduct 2 = true ↔ (2 : Int) ≤ 5) ∧
     canAddToCart sampleProduct = canAddToCart sampleProduct 1) :=
  ⟨by decide, canAddToCart_iff_le_availableStock sampleProduct 2 5 (by decide)⟩

/-- A product whose `available_stock` field is present but `null`. -/
def nullStockProduct : Product :=
  { id := 2, name := "gadget", price := 5, stock := 3,
    available_stock := some JsNumOrNull.null }

/-- C10: the presence test in `getAvailableStock` is strictly "not
undefined": for a product whose `available_stock` is `null` (present
but unset), `getAvailableStock` returns `null` without falling back to
`product.stock`, and `canAddToCart` is false for every quantity
`k ≥ 1` (the JavaScript comparison coerces `null` to `0`). -/
theorem availableStock_null_no_fallback (p : Product) (k : Int)
    (h : p.available_stock = some JsNumOrNull.null) :
    getAvailableStock p = JsNumOrNull.null ∧
    (1 ≤ k → canAddToCart p k = false) := by
  constructor
  · simp [getAvailableStock, h]
  · intro hk
    simp [canAddToCart, getAvailableStock, h, JsNumOrNull.toNumber]
    omega

theorem availableStock_null_no_fallback_witness :
    nullStockProduct.available_stock = some JsNumOrNull.null ∧
    (getAvailableStock nullStockProduct = JsNumOrNull.null ∧
     ((1 : Int) ≤ 1 → canAddToCart nullStockProduct 1 = false)) :=
  ⟨by decide, availableStock_null_no_fallback nullStockProduct 1 (by decide)⟩

/-- C1 counterexample: a successful `clearCart` invocation dispatches
`SET_CART` (with an empty item list) as its first — and only — action;
no `SET_LOADING(true)` is dispatched, and in particular none before the
network step, so not all five operations dispatch `SET_LOADING(true)`
first. -/
theorem clearCart_first_dispatch_not_loading :
    firstDispatched (clearCart (FetchResult.ok ())) =
      some (Action.setCart (some [])) ∧
    firstDispatched (clearCart (FetchResult.ok ())) ≠
      some (Action.setLoading true) := by
  decide

/-- C1 (amended): only `loadCart` and `addToCart` dispatch
`SET_LOADING(true)` before their network step (it is the unique action
dispatched before their first request); `removeFromCart`,
`updateQuantity` and `clearCart` dispatch no action at all before their
first network request — `SET_LOADING(true)` can only occur later,
inside the nested `loadCart` of a successful mutation. -/
theorem loading_dispatch_before_network
    (resp loadResp : FetchResult (List BackendItem)) (s : CartState)
    (p : Product) (pid : Nat) (q qty : Int) (r1 r2 : FetchResult Unit) :
    actionsBeforeFirstRequest (loadCart resp) = [Action.setLoading true] ∧
    actionsBeforeFirstRequest (addToCart p qty r1 loadResp) =
      [Action.setLoading true] ∧
    actionsBeforeFirstRequest (removeFromCart s pid r1 loadResp) = [] ∧
    actionsBeforeFirstRequest (updateQuantity s pid q r2 r1 loadResp) = [] ∧
    actionsBeforeFirstRequest (clearCart r1) = [] := by
  refine ⟨rfl, rfl, ?_, ?_, rfl⟩
  · unfold removeFromCart
    cases s.items.find? (fun item => item.productId == pid) with
    | none => rfl
    | some item => rfl
  · unfold updateQuantity removeFromCart
    cases s.items.find? (fun item => item.productId == pid) with
    | none => rfl
    | some item =>
      by_cases hq : q ≤ 0 <;>
        simp [hq, actionsBeforeFirstRequest]

/-- On a failing fetch, `loadCart` dispatches `SET_ERROR`, shows no
alert, and issues exactly one request. -/
theorem loadCart_failure_events (fl : FetchResult (List BackendItem))
    (h : fl.isFailure = true) :
    hasSetErrorDispatch (loadCart fl) = true ∧
    hasAlert (loadCart fl) = false ∧ requestCount (loadCart fl) = 1 := by
  cases fl with
  | ok _ => simp [FetchResult.isFailure] at h
  | notOk d => exact ⟨rfl, rfl, rfl⟩
  | netError m => exact ⟨rfl, rfl, rfl⟩

/-- On a failing POST, `addToCart` dispatches `SET_ERROR`, alerts the
user, and issues exactly one request. -/
theorem addToCart_failure_events (p : Product) (qty : Int)
    (fu : FetchResult Unit) (loadResp : FetchResult (List BackendItem))
    (h : fu.isFailure = true) :
    hasSetErrorDispatch (addToCart p qty fu loadResp) = true ∧
    hasAlert (addToCart p qty fu loadResp) = true ∧
    requestCount (addToCart p qty fu loadResp) = 1 := by
  cases fu with
  | ok _ => simp [FetchResult.isFailure] at h
  | notOk d => exact ⟨rfl, rfl, rfl⟩
  | netError m => exact ⟨rfl, rfl, rfl⟩

/-- On a failing DELETE, `removeFromCart` dispatches nothing — in
particular no `SET_ERROR` — leaves the state unchanged, issues at most
one request, and alerts exactly when a matching line existed. -/
theorem removeFromCart_failure_events (s : CartState) (pid : Nat)
    (fu : FetchResult Unit) (loadResp : FetchResult (List BackendItem))
    (h : fu.isFailure = true) :
    hasSetErrorDispatch (removeFromCart s pid fu loadResp) = false ∧
    applyEvents s (removeFromCart s pid fu loadResp) = s ∧
    requestCount (removeFromCart s pid fu loadResp) ≤ 1 ∧
    ((s.items.find? (fun item => item.productId == pid)).isSome = true →
      hasAlert (removeFromCart s pid fu loadResp) = true) := by
  unfold removeFromCart
  cases s.items.find? (fun item => item.productId == pid) with
  | none =>
    exact ⟨rfl, rfl, by simp [requestCount], by simp⟩
  | some item =>
    cases fu with
    | ok _ => simp [FetchResult.isFailure] at h
    | notOk d =>
      exact ⟨rfl, rfl, by simp [requestCount, Event.isRequest], fun _ => rfl⟩
    | netError m =>
      exact ⟨rfl, rfl, by simp [requestCount, Event.isRequest], fun _ => rfl⟩

/-- On a failing PUT with a positive quantity, `updateQuantity`
dispatches nothing — in particular no `SET_ERROR` — leaves the state
unchanged, issues at most one request, and alerts exactly when a
matching line existed. -/
theorem updateQuantity_failure_events (s : CartState) (pid : Nat) (q : Int)
    (fu du : FetchResult Unit) (loadResp : FetchResult (List BackendItem))
    (h : fu.isFailure = true) (hq : 0 < q) :
    hasSetErrorDispatch (updateQuantity s pid q fu du loadResp) = false ∧
    applyEvents s (updateQuantity s pid q fu du loadResp) = s ∧
    requestCount (updateQuantity s pid q fu du loadResp) ≤ 1 ∧
    ((s.items.find? (fun item => item.productId == pid)).isSome = true →
      hasAlert (updateQuantity s pid q fu du loadResp) = true) := by
  have hq' : ¬ q ≤ 0 := by omega
  unfold updateQuantity
  cases s.items.find? (fun item => item.productId == pid) with
  | none =>
    exact ⟨rfl, rfl, by simp [requestCount], by simp⟩
  | some item =>
    simp only [if_neg hq']
    cases fu with
    | ok _ => simp [FetchResult.isFailure] at h
    | notOk d =>
      exact ⟨rfl, rfl, by simp [requestCount, Event.isRequest], fun _ => rfl⟩
    | netError m =>
      exact ⟨rfl, rfl, by simp [requestCount, Event.isRequest], fun _ => rfl⟩

/-- On a failing DELETE, `clearCart` dispatches nothing — in particular
no `SET_ERROR` — leaves the state unchanged, alerts the user, and
issues exactly one request. -/
theorem clearCart_failure_events (s : CartState) (fu : FetchResult Unit)
    (h : fu.isFailure = true) :
    hasSetErrorDispatch (clearCart fu) = false ∧
    applyEvents s (clearCart fu) = s ∧
    requestCount (clearCart fu) = 1 ∧ hasAlert (clearCart fu) = true := by
  cases fu with
  | ok _ => simp [FetchResult.isFailure] at h
  | notOk d => exact ⟨rfl, rfl, rfl, rfl⟩
  | netError m => exact ⟨rfl, rfl, rfl, rfl⟩

/-- C2 counterexample: `removeFromCart` on a cart holding the product,
with a non-success DELETE response, dispatches no `SET_ERROR` and
leaves the state's `error` at `null` — only an alert is shown — so not
every failing operation surfaces its failure via `SET_ERROR`. -/
theorem removeFromCart_failure_no_error_dispatch :
    (FetchResult.notOk none : FetchResult Unit).isFailure = true ∧
    hasSetErrorDispatch
      (removeFromCart sampleState 1 (FetchResult.notOk none)
        (FetchResult.ok [])) = false ∧
    (applyEvents sampleState
      (removeFromCart sampleState 1 (FetchResult.notOk none)
        (FetchResult.ok []))).error = none ∧
    hasAlert
      (removeFromCart sampleState 1 (FetchResult.notOk none)
        (FetchResult.ok [])) = true := by
  decide

/-- C2 (amended): on a non-success response or network failure,
`loadCart` and `addToCart` dispatch `SET_ERROR` (only `addToCart` also
alerts; `loadCart` shows no user-facing notification), while
`removeFromCart`, `updateQuantity` (with positive quantity) and
`clearCart` dispatch no `SET_ERROR` and leave the state entirely
unchanged, surfacing the failure only through an alert (shown when a
matching line existed); no operation retries — each failing invocation
issues at most one request. -/
theorem failure_surfacing (s : CartState) (pid : Nat) (p : Product)
    (qty q : Int) (fl : FetchResult (List BackendItem))
    (fu du : FetchResult Unit) (loadResp : FetchResult (List BackendItem))
    (hfl : fl.isFailure = true) (hfu : fu.isFailure = true) (hq : 0 < q) :
    (hasSetErrorDispatch (loadCart fl) = true ∧
      hasAlert (loadCart fl) = false ∧ requestCount (loadCart fl) = 1) ∧
    (hasSetErrorDispatch (addToCart p qty fu loadResp) = true ∧
      hasAlert (addToCart p qty fu loadResp) = true ∧
      requestCount (addToCart p qty fu loadResp) = 1) ∧
    (hasSetErrorDispatch (removeFromCart s pid fu loadResp) = false ∧
      applyEvents s (removeFromCart s pid fu loadResp) = s ∧
      requestCount (removeFromCart s pid fu loadResp) ≤ 1 ∧
      ((s.items.find? (fun item => item.productId == pid)).isSome = true →
        hasAlert (removeFromCart s pid fu loadResp) = true)) ∧
    (hasSetErrorDispatch (updateQuantity s pid q fu du loadResp) = false ∧
      applyEvents s (updateQuantity s pid q fu du loadResp) = s ∧
      requestCount (updateQuantity s pid q fu du loadResp) ≤ 1 ∧
      ((s.items.find? (fun item => item.productId == pid)).isSome = true →
        hasAlert (updateQuantity s pid q fu du loadResp) = true)) ∧
    (hasSetErrorDispatch (clearCart fu) = false ∧
      applyEvents s (clearCart fu) = s ∧
      requestCount (clearCart fu) = 1 ∧ hasAlert (clearCart fu) = true) :=
  ⟨loadCart_failure_events fl hfl,
   addToCart_failure_events p qty fu loadResp hfu,
   removeFromCart_failure_events s pid fu loadResp hfu,
   updateQuantity_failure_events s pid q fu du loadResp hfu hq,
   clearCart_failure_events s fu hfu⟩

theorem failure_surfacing_witness :
    (hasSetErrorDispatch (loadCart (FetchResult.notOk none)) = true ∧
      hasAlert (loadCart (FetchResult.notOk none)) = false ∧
      requestCount (loadCart (FetchResult.notOk none)) = 1) ∧
    (hasSetErrorDispatch
        (addToCart sampleProduct 1 (FetchResult.notOk none)
          (FetchResult.ok [])) = true ∧
      hasAlert (addToCart sampleProduct 1 (FetchResult.notOk none)
          (FetchResult.ok [])) = true ∧
      requestCount (addToCart sampleProduct 1 (FetchResult.notOk none)
          (FetchResult.ok [])) = 1) ∧
    (hasSetErrorDispatch
        (removeFromCart sampleState 1 (FetchResult.notOk none)
          (FetchResult.ok [])) = false ∧
      applyEvents sampleState
        (removeFromCart sampleState 1 (FetchResult.notOk none)
          (FetchResult.ok [])) = sampleState ∧
      requestCount (removeFromCart sampleState 1 (FetchResult.notOk none)
          (FetchResult.ok [])) ≤ 1 ∧
      ((sampleState.items.find?
          (fun item => item.productId == 1)).isSome = true →
        hasAlert (removeFromCart sampleState 1 (FetchResult.notOk none)
          (FetchResult.ok [])) = true)) ∧
    (hasSetErrorDispatch
        (updateQuantity sampleState 1 1 (FetchResult.notOk none)
          (FetchResult.ok ()) (FetchResult.ok [])) = false ∧
      applyEvents sampleState
        (updateQuantity sampleState 1 1 (FetchResult.notOk none)
          (FetchResult.ok ()) (FetchResult.ok [])) = sampleState ∧
      requestCount (updateQuantity sampleState 1 1 (FetchResult.notOk none)
          (FetchResult.ok ()) (FetchResult.ok [])) ≤ 1 ∧
      ((sampleState.items.find?
          (fun item => item.productId == 1)).isSome = true →
        hasAlert (updateQuantity sampleState 1 1 (FetchResult.notOk none)
          (FetchResult.ok ()) (FetchResult.ok [])) = true)) ∧
    (hasSetErrorDispatch (clearCart (FetchResult.notOk none)) = false ∧
      applyEvents sampleState (clearCart (FetchResult.notOk none)) =
        sampleState ∧
      requestCount (clearCart (FetchResult.notOk none)) = 1 ∧
      hasAlert (clearCart (FetchResult.notOk none)) = true) :=
  failure_surfacing sampleState 1 sampleProduct 1 1 (FetchResult.notOk none)
    (FetchResult.notOk none) (FetchResult.ok ()) (FetchResult.ok [])
    (by decide) (by decide) (by decide)

end CartSync
